import Mathlib

/-!
Verification of the up-labs manufacturing platform's ingestion pipeline.

Shallow embedding of the TypeScript sources:
  * src/services/tenantService.ts   (tenant resolution, caching; anomaly detector)
  * src/services/storageService.ts  (multi-tier storage fan-out, S3 archival)
  * src/lambdas/ingestSensorData/handler.ts (HTTP ingest orchestrator)

JavaScript numbers are modelled as rationals (the code only compares and
copies them); JavaScript strings as Lean strings; `undefined`/optional
fields as `Option`; a rejected promise / thrown exception as `Except.error`.
JavaScript truthiness on optional strings (`undefined` and `""` are falsy)
is modelled by `jsTruthy`.
-/

/-- Models JavaScript string truthiness for a possibly-undefined string:
`undefined` and the empty string are falsy. -/
def jsTruthy : Option String → Bool
  | none => false
  | some s => decide (s ≠ "")

/-- Models the JavaScript expression `a || b` on possibly-undefined strings. -/
def jsOr (a b : Option String) : Option String :=
  if jsTruthy a then a else b

/-- Models the JavaScript expression `a || dflt` where `dflt` is a non-empty
string literal, producing a plain string. -/
def jsOrStr (a : Option String) (dflt : String) : String :=
  match a with
  | none => dflt
  | some s => if s ≠ "" then s else dflt

/-- Models JavaScript number-to-string coercion inside template literals. -/
def numStr (q : ℚ) : String := toString q

/-- `AnomalyType` enum from src/models/Anomaly.ts. -/
inductive AnomalyType where
  | high_temperature
  | critical_temperature
  | high_vibration
  | critical_vibration
  | abnormal_pressure
  | critical_pressure
  | power_spike
  | equipment_offline
deriving DecidableEq, Repr, BEq

/-- Severity levels of anomalies and alerts (string union in the source). -/
inductive Severity where
  | low
  | medium
  | high
  | critical
deriving DecidableEq, Repr, BEq

/-- `Anomaly` record from src/models/Anomaly.ts (the optional resolution
fields are never set on the ingest path and are omitted). -/
structure Anomaly where
  type : AnomalyType
  equipment_id : String
  timestamp : String
  value : ℚ
  threshold : ℚ
  severity : Severity
  message : String
deriving DecidableEq, Repr

/-- `SensorData` from src/models/SensorData.ts. `hasAnomalies` is read back
with `|| false` by the storage layer, so it is modelled as a plain Bool with
default false; `anomalies` likewise defaults to the empty list.
`custom_metrics` (a free-form JSON bag the pipeline only serializes, never
inspects) is modelled as an opaque association list. -/
structure SensorData where
  equipment_id : String
  timestamp : String
  temperature : Option ℚ := none
  vibration : Option ℚ := none
  pressure : Option ℚ := none
  power_consumption : Option ℚ := none
  custom_metrics : List (String × String) := []
  facility_id : Option String := none
  line_id : Option String := none
  ingestionTimestamp : Option String := none
  source : Option String := none
  hasAnomalies : Bool := false
  anomalies : List Anomaly := []
deriving DecidableEq, Repr

/-- One metric's banded thresholds, from the `THRESHOLDS` constant in the
anomaly service. -/
structure MetricThresholds where
  min : ℚ
  max : ℚ
  criticalMax : ℚ
deriving DecidableEq, Repr

/-- The `THRESHOLDS` constant's shape. -/
structure Thresholds where
  temperature : MetricThresholds
  vibration : MetricThresholds
  pressure : MetricThresholds
deriving DecidableEq, Repr

/-- `THRESHOLDS` from the anomaly service (tenantService.ts lines 338-342):
temperature { min 0, max 150, criticalMax 180 }, vibration { 0, 2.0, 5.0 },
pressure { 50, 500, 800 }. -/
def THRESHOLDS : Thresholds :=
  { temperature := { min := 0, max := 150, criticalMax := 180 }
    vibration := { min := 0, max := 2, criticalMax := 5 }
    pressure := { min := 50, max := 500, criticalMax := 800 } }

/-- `detectTemperatureAnomalies` (tenantService.ts lines 376-412). -/
def detectTemperatureAnomalies (equipmentId : String) (temperature : ℚ)
    (timestamp : String) : List Anomaly :=
  if temperature > THRESHOLDS.temperature.criticalMax then
    [{ type := AnomalyType.critical_temperature
       equipment_id := equipmentId
       timestamp := timestamp
       value := temperature
       threshold := THRESHOLDS.temperature.criticalMax
       severity := Severity.critical
       message := "Critical temperature detected: " ++ numStr temperature ++
         "°C (threshold: " ++ numStr THRESHOLDS.temperature.criticalMax ++ "°C)" }]
  else if temperature > THRESHOLDS.temperature.max then
    [{ type := AnomalyType.high_temperature
       equipment_id := equipmentId
       timestamp := timestamp
       value := temperature
       threshold := THRESHOLDS.temperature.max
       severity := Severity.high
       message := "High temperature detected: " ++ numStr temperature ++
         "°C (normal max: " ++ numStr THRESHOLDS.temperature.max ++ "°C)" }]
  else if temperature < THRESHOLDS.temperature.min then
    -- the source reuses HIGH_TEMPERATURE here ("would add LOW_TEMPERATURE")
    [{ type := AnomalyType.high_temperature
       equipment_id := equipmentId
       timestamp := timestamp
       value := temperature
       threshold := THRESHOLDS.temperature.min
       severity := Severity.medium
       message := "Low temperature detected: " ++ numStr temperature ++
         "°C (normal min: " ++ numStr THRESHOLDS.temperature.min ++ "°C)" }]
  else []

/-- `detectVibrationAnomalies` (tenantService.ts lines 414-440). -/
def detectVibrationAnomalies (equipmentId : String) (vibration : ℚ)
    (timestamp : String) : List Anomaly :=
  if vibration > THRESHOLDS.vibration.criticalMax then
    [{ type := AnomalyType.critical_vibration
       equipment_id := equipmentId
       timestamp := timestamp
       value := vibration
       threshold := THRESHOLDS.vibration.criticalMax
       severity := Severity.critical
       message := "Critical vibration detected: " ++ numStr vibration ++
         " (threshold: " ++ numStr THRESHOLDS.vibration.criticalMax ++ ")" }]
  else if vibration > THRESHOLDS.vibration.max then
    [{ type := AnomalyType.high_vibration
       equipment_id := equipmentId
       timestamp := timestamp
       value := vibration
       threshold := THRESHOLDS.vibration.max
       severity := Severity.high
       message := "High vibration detected: " ++ numStr vibration ++
         " (normal max: " ++ numStr THRESHOLDS.vibration.max ++ ")" }]
  else []

/-- `detectPressureAnomalies` (tenantService.ts lines 442-468). -/
def detectPressureAnomalies (equipmentId : String) (pressure : ℚ)
    (timestamp : String) : List Anomaly :=
  if pressure > THRESHOLDS.pressure.criticalMax then
    [{ type := AnomalyType.critical_pressure
       equipment_id := equipmentId
       timestamp := timestamp
       value := pressure
       threshold := THRESHOLDS.pressure.criticalMax
       severity := Severity.critical
       message := "Critical pressure detected: " ++ numStr pressure ++
         " PSI (threshold: " ++ numStr THRESHOLDS.pressure.criticalMax ++ " PSI)" }]
  else if pressure > THRESHOLDS.pressure.max ∨ pressure < THRESHOLDS.pressure.min then
    [{ type := AnomalyType.abnormal_pressure
       equipment_id := equipmentId
       timestamp := timestamp
       value := pressure
       threshold :=
         if pressure > THRESHOLDS.pressure.max then THRESHOLDS.pressure.max
         else THRESHOLDS.pressure.min
       severity := Severity.medium
       message := "Pressure anomaly detected: " ++ numStr pressure ++
         " PSI (normal range: " ++ numStr THRESHOLDS.pressure.min ++ "-" ++
         numStr THRESHOLDS.pressure.max ++ " PSI)" }]
  else []

/-- `detectAnomalies` (tenantService.ts lines 344-374). The source runs the
three per-metric detections for the metrics present on the reading through
`Promise.all`, which preserves the temperature, vibration, pressure order of
the promise array, and concatenates the results. -/
def detectAnomalies (sensorData : SensorData) : List Anomaly :=
  (Option.elim sensorData.temperature []
    (fun t => detectTemperatureAnomalies sensorData.equipment_id t sensorData.timestamp)) ++
  (Option.elim sensorData.vibration []
    (fun v => detectVibrationAnomalies sensorData.equipment_id v sensorData.timestamp)) ++
  (Option.elim sensorData.pressure []
    (fun p => detectPressureAnomalies sensorData.equipment_id p sensorData.timestamp))

/-- Deployment type union from the TenantContext interface. -/
inductive DeploymentType where
  | single_tenant
  | multi_tenant
deriving DecidableEq, Repr, BEq

/-- `TenantContext` (src/models, part_011), trimmed to the fields the
verified code paths read: identity, deployment type, subscription tier, the
dedicated cold-tier bucket (`config.storage.s3_bucket`) and the API rate
limit (`config.features.api_rate_limit`). -/
structure TenantContext where
  tenant_id : String
  tenant_name : String
  deployment_type : DeploymentType
  subscription_tier : String
  s3_bucket : Option String := none
  api_rate_limit : ℕ := 0
deriving DecidableEq, Repr

/-- The `acme-corp` entry of the mock tenant directory in
`TenantResolver.loadTenantConfig` (tenantService.ts lines 108-146). -/
def acmeTenant : TenantContext :=
  { tenant_id := "acme-corp"
    tenant_name := "ACME Corporation"
    deployment_type := DeploymentType.single_tenant
    subscription_tier := "enterprise"
    s3_bucket := some "manufacturing-platform-archival-development-535002890929"
    api_rate_limit := 10000 }

/-- The `shared-tenant` entry of the mock tenant directory
(tenantService.ts lines 147-181). -/
def sharedTenant : TenantContext :=
  { tenant_id := "shared-tenant"
    tenant_name := "Shared SMB Customer"
    deployment_type := DeploymentType.multi_tenant
    subscription_tier := "professional"
    s3_bucket := none
    api_rate_limit := 1000 }

/-- `TenantResolver.loadTenantConfig` (tenantService.ts lines 100-190):
look the id up in the mock directory; an unknown id throws
`Tenant not found: <id>`, modelled as `none`. -/
def loadTenantConfig (tenantId : String) : Option TenantContext :=
  if tenantId = "acme-corp" then some acmeTenant
  else if tenantId = "shared-tenant" then some sharedTenant
  else none

/-- The parsed JSON payload of an ingest request: the shape
`JSON.parse(event.body || '{}')` produces before validation, where every
field of `SensorData` may be absent. -/
structure SensorDataIn where
  equipment_id : Option String := none
  timestamp : Option String := none
  temperature : Option ℚ := none
  vibration : Option ℚ := none
  pressure : Option ℚ := none
  power_consumption : Option ℚ := none
  custom_metrics : List (String × String) := []
  facility_id : Option String := none
  line_id : Option String := none
deriving DecidableEq, Repr

/-- `APIGatewayProxyEvent`, trimmed to what the ingest path reads. `headers`
and `queryStringParameters` are the JavaScript string-record objects,
modelled as association lists looked up by exact key. `body` models the
outcome of `JSON.parse(event.body || '{}')`: `Except.error m` is a parse
exception with message `m` (JSON.parse is a JavaScript runtime routine; the
embedding carries its outcome rather than re-implementing it). -/
structure APIGatewayProxyEvent where
  headers : List (String × String) := []
  queryStringParameters : List (String × String) := []
  body : Except String SensorDataIn := Except.ok {}

/-- Property access on a JavaScript string-record: first binding wins,
absent key is `undefined`. -/
def recordGet (record : List (String × String)) (key : String) : Option String :=
  (record.find? (fun p => p.1 = key)).map (fun p => p.2)

/-- `headers?.[k]` on an event. -/
def headerGet (event : APIGatewayProxyEvent) (key : String) : Option String :=
  recordGet event.headers key

/-- `queryStringParameters?.[k]` on an event. -/
def queryGet (event : APIGatewayProxyEvent) (key : String) : Option String :=
  recordGet event.queryStringParameters key

/-- JavaScript `s.replace(pat, rep)` with a string pattern: replaces the
first occurrence only. -/
def jsReplaceFirst (s pat rep : String) : String :=
  match s.splitOn pat with
  | [] => s
  | [x] => x
  | a :: rest => a ++ rep ++ String.intercalate pat rest

/-- `TenantResolver.extractFromJWT` (tenantService.ts lines 71-80). The
composite `JSON.parse(Buffer.from(token.split('.')[1], 'base64')).tenant_id`
is a pair of JavaScript runtime routines applied to the middle token
segment; it is passed in as `claimOf`, where `none` covers both a thrown
decode/parse error and an absent claim. The source's `payload.tenant_id ||
null` makes a falsy claim value null. -/
def extractFromJWT (claimOf : String → Option String) (authHeader : String) :
    Option String :=
  let token := jsReplaceFirst authHeader "Bearer " ""
  match (token.splitOn ".").get? 1 with
  | none => none
  | some seg =>
    match claimOf seg with
    | none => none
    | some claim => if claim ≠ "" then some claim else none

/-- `TenantResolver.extractFromSubdomain` (tenantService.ts lines 82-89):
at least three dot-separated labels and second label `manufacturing`. -/
def extractFromSubdomain (host : String) : Option String :=
  match host.splitOn "." with
  | p0 :: p1 :: _ :: _ => if p1 = "manufacturing" then some p0 else none
  | _ => none

/-- `TenantResolver.extractFromApiKey` (tenantService.ts lines 91-98): the
part before the first underscore, null when the key has no underscore. -/
def extractFromApiKey (apiKey : String) : Option String :=
  match apiKey.splitOn "_" with
  | p0 :: _ :: _ => some p0
  | _ => none

/-- `TenantResolver.extractTenantId` (tenantService.ts lines 37-69): probe
the five identifier sources in priority order with JavaScript truthiness
tests, returning at the first truthy hit; the API-key branch returns
`extractFromApiKey`'s result unconditionally once the header is present. -/
def extractTenantId (claimOf : String → Option String)
    (event : APIGatewayProxyEvent) : Option String :=
  let h1 := jsOr (headerGet event "X-Tenant-ID") (headerGet event "x-tenant-id")
  if jsTruthy h1 then h1
  else
    let auth := headerGet event "Authorization"
    let fromJwt := if jsTruthy auth then extractFromJWT claimOf (auth.getD "") else none
    if jsTruthy fromJwt then fromJwt
    else
      let host := headerGet event "Host"
      let fromSub := if jsTruthy host then extractFromSubdomain (host.getD "") else none
      if jsTruthy fromSub then fromSub
      else
        let qp := queryGet event "tenant_id"
        if jsTruthy qp then qp
        else
          let apiKey := jsOr (headerGet event "X-API-Key") (headerGet event "x-api-key")
          if jsTruthy apiKey then extractFromApiKey (apiKey.getD "")
          else none

/-- Cache lookup on the process-wide `tenantCache` map, modelled as an
association list (`Map.has`/`Map.get`). -/
def lookupCache (cache : List (String × TenantContext)) (tenantId : String) :
    Option TenantContext :=
  (cache.find? (fun p => p.1 = tenantId)).map (fun p => p.2)

/-- Result of one `TenantResolver.resolveTenant` call: the returned context
or thrown error, the cache after the call, whether `validateTenantAccess`
ran, and the deletion timers scheduled by `setTimeout` as
(tenant id, delay in ms) pairs. -/
structure ResolveOutcome where
  result : Except String TenantContext
  cache : List (String × TenantContext)
  validateInvoked : Bool
  deletionTimersMs : List (String × ℕ)

/-- `TenantResolver.resolveTenant` (tenantService.ts lines 12-35): extract
the tenant id (falsy id throws `Tenant ID not found in request`), serve a
cache hit directly, otherwise load from the directory, run
`validateTenantAccess` (which in the source only logs and never throws for
a loaded tenant), cache the context and schedule its deletion after
`5 * 60 * 1000` ms. -/
def resolveTenant (claimOf : String → Option String)
    (cache : List (String × TenantContext)) (event : APIGatewayProxyEvent) :
    ResolveOutcome :=
  let tenantIdOpt := extractTenantId claimOf event
  if jsTruthy tenantIdOpt = false then
    { result := Except.error "Tenant ID not found in request"
      cache := cache, validateInvoked := false, deletionTimersMs := [] }
  else
    let tenantId := tenantIdOpt.getD ""
    match lookupCache cache tenantId with
    | some ctx =>
      { result := Except.ok ctx
        cache := cache, validateInvoked := false, deletionTimersMs := [] }
    | none =>
      match loadTenantConfig tenantId with
      | none =>
        { result := Except.error ("Tenant not found: " ++ tenantId)
          cache := cache, validateInvoked := false, deletionTimersMs := [] }
      | some tenant =>
        { result := Except.ok tenant
          cache := (tenantId, tenant) :: cache
          validateInvoked := true
          deletionTimersMs := [(tenantId, 5 * 60 * 1000)] }

/-- The enrichment step of the ingest handler (handler.ts lines 33-37):
spread the parsed payload, add `ingestionTimestamp` (the handler's
`new Date().toISOString()`, passed in as `nowIso`) and the fixed source tag.
The required identity fields are carried over from the parsed payload; the
handler only reaches this step after its truthiness validation, where they
are present and non-empty. -/
def enrich (sensorData : SensorDataIn) (nowIso : String) : SensorData :=
  { equipment_id := sensorData.equipment_id.getD ""
    timestamp := sensorData.timestamp.getD ""
    temperature := sensorData.temperature
    vibration := sensorData.vibration
    pressure := sensorData.pressure
    power_consumption := sensorData.power_consumption
    custom_metrics := sensorData.custom_metrics
    facility_id := sensorData.facility_id
    line_id := sensorData.line_id
    ingestionTimestamp := some nowIso
    source := some "iot-webhook" }

/-- `Alert` from src/models/Anomaly.ts, as constructed by the ingest
handler (handler.ts lines 52-62). -/
structure Alert where
  alert_id : String
  equipment_id : String
  type : AnomalyType
  severity : Severity
  message : String
  timestamp : String
  acknowledged : Bool
  resolved : Bool
  processing_latency_ms : ℕ
deriving DecidableEq, Repr

/-- The alert record the handler builds from one qualifying anomaly. -/
def mkAlert (uuid : String) (anomaly : Anomaly) (processingLatency : ℕ) : Alert :=
  { alert_id := uuid
    equipment_id := anomaly.equipment_id
    type := anomaly.type
    severity := anomaly.severity
    message := anomaly.message
    timestamp := anomaly.timestamp
    acknowledged := false
    resolved := false
    processing_latency_ms := processingLatency }

/-- The externally observable actions of one ingest-handler run, in program
order: the tenant usage tick, the anomaly-detector invocation, the
per-qualifying-anomaly alert fan-out (Kafka priority topic plus the
CloudWatch/SNS notification service), and the detached background storage
fan-out and sensor-data publish. -/
inductive Effect where
  | trackUsage (tenantId : String) (operation : String)
  | detectInvoked (reading : SensorData)
  | publishAlert (topic : String) (alert : Alert)
  | processCriticalAlert (alert : Alert)
  | storeMultiTier (reading : SensorData) (tenant : Option TenantContext)
  | publishSensorData (topic : String) (reading : SensorData)
deriving DecidableEq, Repr

/-- Success payload of `createSuccessResponse` on the ingest path
(handler.ts lines 96-104). -/
structure IngestSuccessData where
  message : String
  equipment_id : String
  timestamp : Option String
  anomalies_detected : ℕ
  alerts_created : ℕ
  processing_latency_ms : ℕ
  sla_compliant : Bool
deriving DecidableEq, Repr

/-- The JSON envelope the two response builders serialize: `success` is the
constructor, `data` lives on the success side, `error`/`details` on the
failure side, and both carry the `new Date().toISOString()` stamp. -/
inductive ResponseBody where
  | success (data : IngestSuccessData) (timestamp : String)
  | failure (error : String) (details : Option (List String)) (timestamp : String)
deriving DecidableEq, Repr

/-- `APIGatewayProxyResult`: status code, headers, JSON body. -/
structure APIGatewayProxyResult where
  statusCode : ℕ
  headers : List (String × String)
  body : ResponseBody
deriving DecidableEq, Repr

/-- The fixed headers both response builders attach (handler.ts lines
162-165 and 177-180). -/
def corsHeaders : List (String × String) :=
  [("Content-Type", "application/json"), ("Access-Control-Allow-Origin", "*")]

/-- `createSuccessResponse` (handler.ts lines 159-172). -/
def createSuccessResponse (nowIso : String) (data : IngestSuccessData) :
    APIGatewayProxyResult :=
  { statusCode := 200, headers := corsHeaders
    body := ResponseBody.success data nowIso }

/-- `createErrorResponse` (handler.ts lines 174-188). -/
def createErrorResponse (nowIso : String) (statusCode : ℕ) (error : String)
    (details : Option (List String)) : APIGatewayProxyResult :=
  { statusCode := statusCode, headers := corsHeaders
    body := ResponseBody.failure error details nowIso }

/-- What one invocation of the ingest lambda produces: the HTTP response, or
`Except.error` when an exception escapes the handler (the Lambda invocation
fails and API Gateway answers on its own), plus the effect trace. -/
structure HandlerOutcome where
  response : Except String APIGatewayProxyResult
  effects : List Effect
deriving Repr

/-- The ingest handler (handler.ts lines 16-113) composed with
`withTenantContext` (tenantService.ts lines 217-229). Wall-clock samples
are inputs: `nowIso` for `new Date().toISOString()`, `processingLatency`
and `totalLatency` for the two `Date.now() - startTime` differences, and
`uuid` for `generateUUID()` at each qualifying-anomaly position. Tenant
resolution failures escape uncaught (the try/catch sits inside the
callback that `withTenantContext` only calls after resolution); the
per-alert Kafka publish and notification service both swallow their own
errors in the source, so the success path always reaches the response. -/
def ingestHandler (claimOf : String → Option String)
    (cache : List (String × TenantContext)) (nowIso : String)
    (uuid : ℕ → String) (processingLatency totalLatency : ℕ)
    (event : APIGatewayProxyEvent) : HandlerOutcome :=
  match (resolveTenant claimOf cache event).result with
  | Except.error e => { response := Except.error e, effects := [] }
  | Except.ok tenantContext =>
    let usage := [Effect.trackUsage tenantContext.tenant_id "sensor-data-ingestion"]
    match event.body with
    | Except.error e =>
      { response := Except.ok
          (createErrorResponse nowIso 500 "Internal server error" (some [e]))
        effects := usage }
    | Except.ok sensorData =>
      if !(jsTruthy sensorData.equipment_id) || !(jsTruthy sensorData.timestamp) then
        { response := Except.ok (createErrorResponse nowIso 400
            "Missing required fields: equipment_id, timestamp" none)
          effects := usage }
      else
        let enrichedData := enrich sensorData nowIso
        let anomalies := detectAnomalies enrichedData
        let qualifying := anomalies.filter
          (fun a => a.severity == Severity.critical || a.severity == Severity.high)
        let alerts := qualifying.enum.map
          (fun p => mkAlert (uuid p.1) p.2 processingLatency)
        let alertEffects := (alerts.map (fun al =>
          [Effect.publishAlert "manufacturing-alerts-priority" al,
           Effect.processCriticalAlert al])).flatten
        let finalData :=
          if anomalies.isEmpty then enrichedData
          else { enrichedData with anomalies := anomalies, hasAnomalies := true }
        { response := Except.ok (createSuccessResponse nowIso
            { message := "Sensor data ingested successfully"
              equipment_id := enrichedData.equipment_id
              timestamp := some nowIso
              anomalies_detected := anomalies.length
              alerts_created := qualifying.length
              processing_latency_ms := totalLatency
              sla_compliant := decide (totalLatency < 500) })
          effects := usage ++ [Effect.detectInvoked enrichedData] ++ alertEffects ++
            [Effect.storeMultiTier finalData (some tenantContext),
             Effect.publishSensorData "sensor-data" finalData] }

/-- `StorageResult` from src/models/Database.ts. -/
structure StorageResult where
  timescale : Bool
  postgres : Bool
  s3 : Bool
  latency_ms : ℕ
  error : Option String := none
deriving DecidableEq, Repr

/-- `S3UploadResult` from src/models/Database.ts (`size`, the serialized
byte count, is not modelled). -/
structure S3UploadResult where
  success : Bool
  key : Option String := none
  bucket : Option String := none
  error : Option String := none
deriving DecidableEq, Repr

/-- The environment variables the storage service reads on the cold-tier
path. -/
structure Env where
  SHARED_S3_BUCKET : Option String := none
  S3_BUCKET_NAME : Option String := none
deriving DecidableEq, Repr

/-- The value `TenantConfigService.getStorageConfig` returns (tenantService.ts
lines 262-276): a dedicated bucket and empty key stem for single-tenant, the
shared bucket and `tenants/<id>/` stem otherwise. `prefixStr` models the
source's `prefix` field. -/
structure StorageConfig where
  bucket : Option String
  prefixStr : String
deriving DecidableEq, Repr

/-- `TenantConfigService.getStorageConfig` (tenantService.ts lines 262-276). -/
def getStorageConfig (env : Env) (tenant : TenantContext) : StorageConfig :=
  if tenant.deployment_type = DeploymentType.single_tenant then
    { bucket := tenant.s3_bucket, prefixStr := "" }
  else
    { bucket := env.SHARED_S3_BUCKET
      prefixStr := "tenants/" ++ tenant.tenant_id ++ "/" }

/-- The components JavaScript date accessors return for one `Date` value:
`getFullYear()`, `getMonth()` (0-based), `getDate()`, `getHours()`. -/
structure JsDate where
  year : ℕ
  month : ℕ
  day : ℕ
  hour : ℕ
deriving DecidableEq, Repr

/-- JavaScript `String(n).padStart(2, '0')`. -/
def jsPad2 (s : String) : String :=
  if s.length < 2 then String.mk (List.replicate (2 - s.length) '0') ++ s else s

/-- The `<YYYY>/<MM>/<DD>/<HH>` segment both archival key builders
interpolate from a date (year unpadded, month shifted to 1-based and padded,
day and hour padded). -/
def jsDateKeyPart (d : JsDate) : String :=
  toString d.year ++ "/" ++ jsPad2 (toString (d.month + 1)) ++ "/" ++
    jsPad2 (toString d.day) ++ "/" ++ jsPad2 (toString d.hour)

/-- The bucket selection shared by `archiveToS3` and `archiveErrorToS3`
(storageService.ts lines 381-387 and 447-455): dedicated bucket when
single-tenant with a truthy configured bucket, otherwise
`SHARED_S3_BUCKET || S3_BUCKET_NAME || 'up-labs-manufacturing-data'`. -/
def archiveBucket (env : Env) (tenantContext : Option TenantContext) : String :=
  let storageConfig := tenantContext.map (getStorageConfig env)
  let isSingle := tenantContext.map (fun t => t.deployment_type) =
    some DeploymentType.single_tenant
  let cfgBucket := storageConfig.bind (fun c => c.bucket)
  if isSingle ∧ jsTruthy cfgBucket then
    cfgBucket.getD ""
  else
    jsOrStr env.SHARED_S3_BUCKET
      (jsOrStr env.S3_BUCKET_NAME "up-labs-manufacturing-data")

/-- The cold-tier object key `archiveToS3` builds (storageService.ts lines
424-438) from the reading and `d`, the components of
`new Date(sensorData.timestamp)` (JavaScript date parsing is a runtime
routine; its result is an input of the embedding). With no tenant context
the template interpolation of `tenantContext?.tenant_id` renders the
literal `undefined`. -/
def archiveKey (sensorData : SensorData) (tenantContext : Option TenantContext)
    (env : Env) (d : JsDate) : String :=
  let facilityId := jsOrStr sensorData.facility_id "unknown-facility"
  let tail := facilityId ++ "/" ++ sensorData.equipment_id ++ "/" ++
    jsDateKeyPart d ++ "/" ++ sensorData.timestamp ++ ".json"
  match tenantContext with
  | some t =>
    if t.deployment_type = DeploymentType.single_tenant then tail
    else jsOrStr (some (getStorageConfig env t).prefixStr)
      ("tenants/" ++ t.tenant_id ++ "/") ++ tail
  | none => "tenants/undefined/" ++ tail

/-- The cold-tier error key `archiveErrorToS3` builds (storageService.ts
lines 360-371): rooted at `errors/` (after the tenant stem in shared mode),
date components from `new Date()` at failure time (`errNow`), filename
`<equipment_id>-<Date.now()>.json`. -/
def archiveErrorKey (sensorData : SensorData)
    (tenantContext : Option TenantContext) (env : Env) (errNow : JsDate)
    (epochMs : ℕ) : String :=
  let tail := "errors/" ++ jsDateKeyPart errNow ++ "/" ++
    jsOrStr (some sensorData.equipment_id) "unknown" ++ "-" ++
    toString epochMs ++ ".json"
  match tenantContext with
  | some t =>
    if t.deployment_type = DeploymentType.single_tenant then tail
    else jsOrStr (some (getStorageConfig env t).prefixStr)
      ("tenants/" ++ t.tenant_id ++ "/") ++ tail
  | none => "tenants/undefined/" ++ tail

/-- One `PutObjectCommand` sent to the object store: target bucket and key,
whether the serialized body carries the `processing_failed: true` marker,
and the metadata headers. -/
structure S3Put where
  bucket : String
  key : String
  processing_failed : Bool
  metadata : List (String × String)
deriving DecidableEq, Repr

/-- The metadata headers `archiveToS3` attaches (storageService.ts lines
463-468). -/
def archiveMetadata (sensorData : SensorData)
    (tenantContext : Option TenantContext) (nowIso : String) :
    List (String × String) :=
  [("equipmentId", sensorData.equipment_id),
   ("tenantId", jsOrStr (tenantContext.map (fun t => t.tenant_id)) "shared"),
   ("sensorType", "manufacturing"),
   ("archivedAt", nowIso)]

/-- `archiveErrorToS3` (storageService.ts lines 358-419): build the error
key and bucket, put the raw reading with the `processing_failed: true`
marker; `sendOutcome` is the result of the `s3Client.send` round-trip. The
surrounding try/catch makes the function resolve (success false) instead of
rejecting when the send fails. -/
def archiveErrorToS3 (env : Env) (sensorData : SensorData)
    (tenantContext : Option TenantContext) (errNow : JsDate) (epochMs : ℕ)
    (nowIso : String) (sendOutcome : Except String Unit) :
    S3UploadResult × List S3Put :=
  let key := archiveErrorKey sensorData tenantContext env errNow epochMs
  let bucket := archiveBucket env tenantContext
  let put : S3Put :=
    { bucket := bucket, key := key, processing_failed := true
      metadata :=
        [("errorType", "processing-failed"),
         ("equipmentId", jsOrStr (some sensorData.equipment_id) "unknown"),
         ("tenantId", jsOrStr (tenantContext.map (fun t => t.tenant_id)) "shared"),
         ("archivedAt", nowIso)] }
  match sendOutcome with
  | Except.ok _ => ({ success := true, key := some key, bucket := some bucket }, [put])
  | Except.error e => ({ success := false, error := some e }, [put])

/-- `archiveToS3` (storageService.ts lines 422-494): build the tenant-aware
key from the reading's timestamp components `d`, put the enriched reading;
on a failed send, archive the raw reading to the error location
(fire-and-forget) and resolve with success false — the function's body is
one try/catch, so it never rejects. -/
def archiveToS3 (env : Env) (sensorData : SensorData)
    (tenantContext : Option TenantContext) (d : JsDate) (nowIso : String)
    (errNow : JsDate) (epochMs : ℕ)
    (sendOutcome errorSendOutcome : Except String Unit) :
    S3UploadResult × List S3Put :=
  let key := archiveKey sensorData tenantContext env d
  let bucket := archiveBucket env tenantContext
  let put : S3Put :=
    { bucket := bucket, key := key, processing_failed := false
      metadata := archiveMetadata sensorData tenantContext nowIso }
  match sendOutcome with
  | Except.ok _ => ({ success := true, key := some key, bucket := some bucket }, [put])
  | Except.error e =>
    let errPuts := (archiveErrorToS3 env sensorData tenantContext errNow epochMs
      nowIso errorSendOutcome).2
    ({ success := false, error := some e }, put :: errPuts)

/-- Whether an awaited promise fulfilled (`Promise.allSettled` status). -/
def exceptOk {ε α : Type} : Except ε α → Bool
  | Except.ok _ => true
  | Except.error _ => false

/-- `storeSensorDataMultiTier` (storageService.ts lines 209-269). The three
tier attempts run under `Promise.allSettled`; `tsOutcome` and `pgOutcome`
are the hot- and warm-tier round-trip results (those inserts can reject),
while the cold tier is `archiveToS3`, which always fulfills — so the settled
status of the cold tier is `Except.ok` of its resolved value. Failures are
collected from rejected statuses only; when any are present the raw reading
is archived to the error location (fire-and-forget). The whole body sits in
a try/catch returning a `StorageResult`, so the function never raises. -/
def storeSensorDataMultiTier (env : Env) (sensorData : SensorData)
    (tenantContext : Option TenantContext)
    (tsOutcome pgOutcome : Except String Unit)
    (sendOutcome errorSendOutcome fanoutErrorSendOutcome : Except String Unit)
    (d errNow : JsDate) (epochMs : ℕ) (nowIso : String) (latency : ℕ) :
    StorageResult × List S3Put :=
  let s3Pair := archiveToS3 env sensorData tenantContext d nowIso errNow epochMs
    sendOutcome errorSendOutcome
  let s3Settled : Except String S3UploadResult := Except.ok s3Pair.1
  let result : StorageResult :=
    { timescale := exceptOk tsOutcome
      postgres := exceptOk pgOutcome
      s3 := exceptOk s3Settled
      latency_ms := latency }
  let failures :=
    (match tsOutcome with
     | Except.error e => ["TimescaleDB: " ++ e]
     | Except.ok _ => []) ++
    (match pgOutcome with
     | Except.error e => ["PostgreSQL: " ++ e]
     | Except.ok _ => [])
  let errPuts :=
    if failures.isEmpty then []
    else (archiveErrorToS3 env sensorData tenantContext errNow epochMs nowIso
      fanoutErrorSendOutcome).2
  (result, s3Pair.2 ++ errPuts)

/-- One operation a tenant-scoped request performs on the shared connection
pool. `getTenantAwareTimescalePool` / `getTenantAwarePostgresPool`
(storageService.ts lines 90-151) issue, in shared mode, a fire-and-forget
`pool.query("SET app.current_tenant_id = '<id>'")` — the pool runs it on an
arbitrary borrowed connection and releases it — and hand back the bare pool;
the caller's data query then borrows a connection independently. -/
inductive PoolOp where
  | setTenantVar (tenant : String) (conn : ℕ)
  | runQuery (tenant : String) (conn : ℕ)
deriving DecidableEq, Repr

/-- The pool operations of one tenant-scoped storage call in shared mode:
the selector's `SET app.current_tenant_id` statement on whichever connection
the pool assigns to it, followed by the data query on whichever connection
the pool assigns to that. Nothing ties `setConn` to `queryConn`. -/
def requestOps (tenant : String) (setConn queryConn : ℕ) : List PoolOp :=
  [PoolOp.setTenantVar tenant setConn, PoolOp.runQuery tenant queryConn]

/-- `Interleave l r t`: `t` is an order-preserving interleaving of the two
operation sequences `l` and `r` — the executions the pool permits for two
concurrent requests. -/
inductive Interleave : List PoolOp → List PoolOp → List PoolOp → Prop where
  | nil : Interleave [] [] []
  | left {a : PoolOp} {l r t : List PoolOp} :
      Interleave l r t → Interleave (a :: l) r (a :: t)
  | right {b : PoolOp} {l r t : List PoolOp} :
      Interleave l r t → Interleave l (b :: r) (b :: t)

/-- Last-written session variable per connection while replaying a trace
(state as an association list, most recent write first). -/
def lookupVar (st : List (ℕ × String)) (conn : ℕ) : Option String :=
  (st.find? (fun p => p.1 = conn)).map (fun p => p.2)

/-- Replay a trace and check the row-level-security discipline: every data
query must run on a connection whose `current_tenant_id` session variable
was last set to that query's tenant. -/
def rlsSafeAux : List (ℕ × String) → List PoolOp → Bool
  | _, [] => true
  | st, PoolOp.setTenantVar t c :: rest => rlsSafeAux ((c, t) :: st) rest
  | st, PoolOp.runQuery t c :: rest =>
    (lookupVar st c = some t : Bool) && rlsSafeAux st rest

/-- The row-level-security discipline over a whole trace. -/
def rlsSafe (trace : List PoolOp) : Bool := rlsSafeAux [] trace

/-- An interleaving the shared pool can produce for two concurrent
shared-mode requests on a one-connection pool: both selectors run their
`SET` statement before either data query executes. -/
def raceTrace : List PoolOp :=
  [PoolOp.setTenantVar "acme-corp" 0,
   PoolOp.setTenantVar "shared-tenant" 0,
   PoolOp.runQuery "acme-corp" 0,
   PoolOp.runQuery "shared-tenant" 0]

/-- A sample reading carrying only the required identity fields, used to
instantiate universally quantified theorems at a concrete input. -/
def sampleReading : SensorData :=
  { equipment_id := "PUMP_001", timestamp := "2025-11-23T10:30:00.000Z" }

/-- The normal-operations reading of the repository's sample events
(sampleEvents: PUMP_001 at 75.5 °C, 1.2 vibration, 250.8 PSI, high power
draw) — every threshold metric inside its normal band. -/
def normalReading : SensorData :=
  { equipment_id := "PUMP_001"
    timestamp := "2025-11-23T10:30:00.000Z"
    temperature := some 75.5
    vibration := some 1.2
    pressure := some 250.8
    power_consumption := some 1250.5
    facility_id := some "FAC_CHICAGO_01"
    line_id := some "LINE_A" }

/-- A parsed ingest payload with valid required fields and a critical
temperature (the sample critical-temperature event: FURNACE_003 at
195.7 °C). -/
def criticalTempPayload : SensorDataIn :=
  { equipment_id := some "FURNACE_003"
    timestamp := some "2025-11-23T10:31:00.000Z"
    temperature := some 195.7
    vibration := some 1.1
    pressure := some 150
    facility_id := some "FAC_DETROIT_02"
    line_id := some "LINE_B" }

/-- A well-formed ingest request for `criticalTempPayload` carrying the
`x-tenant-id: acme-corp` header the sample events use. -/
def validIngestEvent : APIGatewayProxyEvent :=
  { headers := [("Content-Type", "application/json"),
                ("x-tenant-id", "acme-corp")]
    body := Except.ok criticalTempPayload }

/-- The same valid payload with no tenant identifier in any of the five
locations. -/
def noTenantValidBodyEvent : APIGatewayProxyEvent :=
  { headers := [("Content-Type", "application/json")]
    body := Except.ok criticalTempPayload }

/-- A valid minimal payload with no tenant identifier, for the
tenant-missing scenario (spec §8 scenario 6). -/
def tenantMissingEvent : APIGatewayProxyEvent :=
  { headers := [("Content-Type", "application/json"),
                ("User-Agent", "IoT-Device/1.0")]
    body := Except.ok { equipment_id := some "PUMP_001"
                        timestamp := some "2025-11-23T10:30:00.000Z" } }

/-- A request with a known tenant whose JSON body parses but lacks the
`timestamp` field. -/
def missingTimestampEvent : APIGatewayProxyEvent :=
  { headers := [("x-tenant-id", "acme-corp")]
    body := Except.ok { equipment_id := some "PUMP_001" } }

/-- A request whose only tenant identifier is an `X-TENANT-ID` header — a
case variant of `X-Tenant-ID` different from both spellings the extractor
probes. -/
def upperCaseTenantHeaderEvent : APIGatewayProxyEvent :=
  { headers := [("X-TENANT-ID", "tenant-a")]
    body := Except.ok {} }

/-- A request identifying `acme-corp` through the `X-Tenant-ID` header, for
exercising the resolver cache. -/
def acmeHeaderEvent : APIGatewayProxyEvent :=
  { headers := [("X-Tenant-ID", "acme-corp")]
    body := Except.ok {} }

/-- Date components of 2025-11-23T10:30:00Z as JavaScript reports them
(month is 0-based). -/
def novDate : JsDate := { year := 2025, month := 10, day := 23, hour := 10 }

/-- Modelled from the spec's identifier-resolution order, source (1),
amended to the code's two header spellings: what the `X-Tenant-ID` /
`x-tenant-id` header location yields (`none` when absent or empty). -/
def tenantSource1 (event : APIGatewayProxyEvent) : Option String :=
  let h1 := jsOr (headerGet event "X-Tenant-ID") (headerGet event "x-tenant-id")
  if jsTruthy h1 then h1 else none

/-- Modelled from the spec's resolution order, source (2): the `tenant_id`
claim of the bearer token in `Authorization` (via `extractFromJWT`),
`none` when the header is absent/empty or the claim extraction misses. -/
def tenantSource2 (claimOf : String → Option String)
    (event : APIGatewayProxyEvent) : Option String :=
  let auth := headerGet event "Authorization"
  let fromJwt := if jsTruthy auth then extractFromJWT claimOf (auth.getD "") else none
  if jsTruthy fromJwt then fromJwt else none

/-- Modelled from the spec's resolution order, source (3): the first label
of a `Host` header with at least three dot-separated labels whose second
label is the platform domain. -/
def tenantSource3 (event : APIGatewayProxyEvent) : Option String :=
  let host := headerGet event "Host"
  let fromSub := if jsTruthy host then extractFromSubdomain (host.getD "") else none
  if jsTruthy fromSub then fromSub else none

/-- Modelled from the spec's resolution order, source (4): the `tenant_id`
query parameter. -/
def tenantSource4 (event : APIGatewayProxyEvent) : Option String :=
  let qp := queryGet event "tenant_id"
  if jsTruthy qp then qp else none

/-- Modelled from the spec's resolution order, source (5): the part of the
`X-API-Key` / `x-api-key` value before the first underscore, once that
header is present and non-empty. -/
def tenantSource5 (event : APIGatewayProxyEvent) : Option String :=
  let apiKey := jsOr (headerGet event "X-API-Key") (headerGet event "x-api-key")
  if jsTruthy apiKey then extractFromApiKey (apiKey.getD "") else none

theorem tempBand_critical (eid ts : String) (t : ℚ) (h : 180 < t) :
    detectTemperatureAnomalies eid t ts =
      [{ type := AnomalyType.critical_temperature, equipment_id := eid
         timestamp := ts, value := t, threshold := 180
         severity := Severity.critical
         message := "Critical temperature detected: " ++ numStr t ++
           "°C (threshold: " ++ numStr 180 ++ "°C)" }] := by
  simp only [detectTemperatureAnomalies, THRESHOLDS]
  split_ifs with h1 h2 h3 <;> first | rfl | (exfalso; linarith)

theorem tempBand_high (eid ts : String) (t : ℚ) (h1 : 150 < t) (h2 : t ≤ 180) :
    detectTemperatureAnomalies eid t ts =
      [{ type := AnomalyType.high_temperature, equipment_id := eid
         timestamp := ts, value := t, threshold := 150
         severity := Severity.high
         message := "High temperature detected: " ++ numStr t ++
           "°C (normal max: " ++ numStr 150 ++ "°C)" }] := by
  simp only [detectTemperatureAnomalies, THRESHOLDS]
  split_ifs with g1 g2 g3 <;> first | rfl | (exfalso; linarith)

theorem tempBand_low (eid ts : String) (t : ℚ) (h : t < 0) :
    detectTemperatureAnomalies eid t ts =
      [{ type := AnomalyType.high_temperature, equipment_id := eid
         timestamp := ts, value := t, threshold := 0
         severity := Severity.medium
         message := "Low temperature detected: " ++ numStr t ++
           "°C (normal min: " ++ numStr 0 ++ "°C)" }] := by
  simp only [detectTemperatureAnomalies, THRESHOLDS]
  split_ifs with g1 g2 g3 <;> first | rfl | (exfalso; linarith)

theorem tempBand_normal (eid ts : String) (t : ℚ) (h1 : 0 ≤ t) (h2 : t ≤ 150) :
    detectTemperatureAnomalies eid t ts = [] := by
  simp only [detectTemperatureAnomalies, THRESHOLDS]
  split_ifs with g1 g2 g3 <;> first | rfl | (exfalso; linarith)

theorem vibBand_critical (eid ts : String) (v : ℚ) (h : 5 < v) :
    detectVibrationAnomalies eid v ts =
      [{ type := AnomalyType.critical_vibration, equipment_id := eid
         timestamp := ts, value := v, threshold := 5
         severity := Severity.critical
         message := "Critical vibration detected: " ++ numStr v ++
           " (threshold: " ++ numStr 5 ++ ")" }] := by
  simp only [detectVibrationAnomalies, THRESHOLDS]
  split_ifs with g1 g2 <;> first | rfl | (exfalso; linarith)

theorem vibBand_high (eid ts : String) (v : ℚ) (h1 : 2 < v) (h2 : v ≤ 5) :
    detectVibrationAnomalies eid v ts =
      [{ type := AnomalyType.high_vibration, equipment_id := eid
         timestamp := ts, value := v, threshold := 2
         severity := Severity.high
         message := "High vibration detected: " ++ numStr v ++
           " (normal max: " ++ numStr 2 ++ ")" }] := by
  simp only [detectVibrationAnomalies, THRESHOLDS]
  split_ifs with g1 g2 <;> first | rfl | (exfalso; linarith)

theorem vibBand_normal (eid ts : String) (v : ℚ) (h : v ≤ 2) :
    detectVibrationAnomalies eid v ts = [] := by
  simp only [detectVibrationAnomalies, THRESHOLDS]
  split_ifs with g1 g2 <;> first | rfl | (exfalso; linarith)

theorem pressBand_critical (eid ts : String) (p : ℚ) (h : 800 < p) :
    detectPressureAnomalies eid p ts =
      [{ type := AnomalyType.critical_pressure, equipment_id := eid
         timestamp := ts, value := p, threshold := 800
         severity := Severity.critical
         message := "Critical pressure detected: " ++ numStr p ++
           " PSI (threshold: " ++ numStr 800 ++ " PSI)" }] := by
  simp only [detectPressureAnomalies, THRESHOLDS]
  split_ifs with g1 g2 g3 <;> first | rfl | (exfalso; linarith)

theorem pressBand_highAbnormal (eid ts : String) (p : ℚ) (h1 : 500 < p)
    (h2 : p ≤ 800) :
    detectPressureAnomalies eid p ts =
      [{ type := AnomalyType.abnormal_pressure, equipment_id := eid
         timestamp := ts, value := p, threshold := 500
         severity := Severity.medium
         message := "Pressure anomaly detected: " ++ numStr p ++
           " PSI (normal range: " ++ numStr 50 ++ "-" ++ numStr 500 ++ " PSI)" }] := by
  simp only [detectPressureAnomalies, THRESHOLDS]
  split_ifs with g1 g2 g3 <;>
    first
      | rfl
      | (exfalso; linarith)
      | (exact absurd (Or.inl h1) g2)

theorem pressBand_lowAbnormal (eid ts : String) (p : ℚ) (h : p < 50) :
    detectPressureAnomalies eid p ts =
      [{ type := AnomalyType.abnormal_pressure, equipment_id := eid
         timestamp := ts, value := p, threshold := 50
         severity := Severity.medium
         message := "Pressure anomaly detected: " ++ numStr p ++
           " PSI (normal range: " ++ numStr 50 ++ "-" ++ numStr 500 ++ " PSI)" }] := by
  simp only [detectPressureAnomalies, THRESHOLDS]
  split_ifs with g1 g2 g3 <;>
    first
      | rfl
      | (exfalso; linarith)
      | (exact absurd (Or.inr h) g2)

theorem pressBand_normal (eid ts : String) (p : ℚ) (h1 : 50 ≤ p) (h2 : p ≤ 500) :
    detectPressureAnomalies eid p ts = [] := by
  simp only [detectPressureAnomalies, THRESHOLDS]
  split_ifs with g1 g2
  · exfalso; linarith
  · exfalso; rcases g2 with g | g <;> linarith
  · rfl

/-- C1: for every reading, `detectAnomalies` returns exactly the band-table
anomalies — the per-metric detections of the metrics present, concatenated,
where for each metric the highest applicable band wins and yields exactly
one anomaly (kind, severity and threshold as in the band table), and a
value inside the normal band yields none. -/
theorem detectAnomalies_band_table (r : SensorData) :
    detectAnomalies r =
      (Option.elim r.temperature []
        (fun t => detectTemperatureAnomalies r.equipment_id t r.timestamp)) ++
      (Option.elim r.vibration []
        (fun v => detectVibrationAnomalies r.equipment_id v r.timestamp)) ++
      (Option.elim r.pressure []
        (fun p => detectPressureAnomalies r.equipment_id p r.timestamp))
    ∧ (∀ (eid ts : String) (t : ℚ), 180 < t →
        detectTemperatureAnomalies eid t ts =
          [{ type := AnomalyType.critical_temperature, equipment_id := eid
             timestamp := ts, value := t, threshold := 180
             severity := Severity.critical
             message := "Critical temperature detected: " ++ numStr t ++
               "°C (threshold: " ++ numStr 180 ++ "°C)" }])
    ∧ (∀ (eid ts : String) (t : ℚ), 150 < t → t ≤ 180 →
        detectTemperatureAnomalies eid t ts =
          [{ type := AnomalyType.high_temperature, equipment_id := eid
             timestamp := ts, value := t, threshold := 150
             severity := Severity.high
             message := "High temperature detected: " ++ numStr t ++
               "°C (normal max: " ++ numStr 150 ++ "°C)" }])
    ∧ (∀ (eid ts : String) (t : ℚ), t < 0 →
        detectTemperatureAnomalies eid t ts =
          [{ type := AnomalyType.high_temperature, equipment_id := eid
             timestamp := ts, value := t, threshold := 0
             severity := Severity.medium
             message := "Low temperature detected: " ++ numStr t ++
               "°C (normal min: " ++ numStr 0 ++ "°C)" }])
    ∧ (∀ (eid ts : String) (t : ℚ), 0 ≤ t → t ≤ 150 →
        detectTemperatureAnomalies eid t ts = [])
    ∧ (∀ (eid ts : String) (v : ℚ), 5 < v →
        detectVibrationAnomalies eid v ts =
          [{ type := AnomalyType.critical_vibration, equipment_id := eid
             timestamp := ts, value := v, threshold := 5
             severity := Severity.critical
             message := "Critical vibration detected: " ++ numStr v ++
               " (threshold: " ++ numStr 5 ++ ")" }])
    ∧ (∀ (eid ts : String) (v : ℚ), 2 < v → v ≤ 5 →
        detectVibrationAnomalies eid v ts =
          [{ type := AnomalyType.high_vibration, equipment_id := eid
             timestamp := ts, value := v, threshold := 2
             severity := Severity.high
             message := "High vibration detected: " ++ numStr v ++
               " (normal max: " ++ numStr 2 ++ ")" }])
    ∧ (∀ (eid ts : String) (v : ℚ), v ≤ 2 →
        detectVibrationAnomalies eid v ts = [])
    ∧ (∀ (eid ts : String) (p : ℚ), 800 < p →
        detectPressureAnomalies eid p ts =
          [{ type := AnomalyType.critical_pressure, equipment_id := eid
             timestamp := ts, value := p, threshold := 800
             severity := Severity.critical
             message := "Critical pressure detected: " ++ numStr p ++
               " PSI (threshold: " ++ numStr 800 ++ " PSI)" }])
    ∧ (∀ (eid ts : String) (p : ℚ), 500 < p → p ≤ 800 →
        detectPressureAnomalies eid p ts =
          [{ type := AnomalyType.abnormal_pressure, equipment_id := eid
             timestamp := ts, value := p, threshold := 500
             severity := Severity.medium
             message := "Pressure anomaly detected: " ++ numStr p ++
               " PSI (normal range: " ++ numStr 50 ++ "-" ++ numStr 500 ++ " PSI)" }])
    ∧ (∀ (eid ts : String) (p : ℚ), p < 50 →
        detectPressureAnomalies eid p ts =
          [{ type := AnomalyType.abnormal_pressure, equipment_id := eid
             timestamp := ts, value := p, threshold := 50
             severity := Severity.medium
             message := "Pressure anomaly detected: " ++ numStr p ++
               " PSI (normal range: " ++ numStr 50 ++ "-" ++ numStr 500 ++ " PSI)" }])
    ∧ (∀ (eid ts : String) (p : ℚ), 50 ≤ p → p ≤ 500 →
        detectPressureAnomalies eid p ts = []) :=
  ⟨rfl, tempBand_critical, tempBand_high, tempBand_low, tempBand_normal,
   vibBand_critical, vibBand_high, vibBand_normal, pressBand_critical,
   pressBand_highAbnormal, pressBand_lowAbnormal, pressBand_normal⟩

/-- Witness for C1: the critical-temperature band instantiated at the
sample critical reading (195.7 °C → one critical anomaly, threshold 180). -/
theorem detectAnomalies_band_table_witness :
    detectTemperatureAnomalies "FURNACE_003" (195.7 : ℚ) "2025-11-23T10:31:00.000Z" =
      [{ type := AnomalyType.critical_temperature, equipment_id := "FURNACE_003"
         timestamp := "2025-11-23T10:31:00.000Z", value := 195.7, threshold := 180
         severity := Severity.critical
         message := "Critical temperature detected: " ++ numStr 195.7 ++
           "°C (threshold: " ++ numStr 180 ++ "°C)" }] :=
  (detectAnomalies_band_table sampleReading).2.1 "FURNACE_003"
    "2025-11-23T10:31:00.000Z" 195.7 (by norm_num)

theorem mem_detectTemperatureAnomalies_type (eid ts : String) (t : ℚ)
    (a : Anomaly) (ha : a ∈ detectTemperatureAnomalies eid t ts) :
    a.type = AnomalyType.critical_temperature ∨
      a.type = AnomalyType.high_temperature := by
  unfold detectTemperatureAnomalies at ha
  split_ifs at ha <;> simp only [List.mem_singleton, List.not_mem_nil] at ha <;>
    subst ha <;> first | exact Or.inl rfl | exact Or.inr rfl

theorem mem_detectVibrationAnomalies_type (eid ts : String) (v : ℚ)
    (a : Anomaly) (ha : a ∈ detectVibrationAnomalies eid v ts) :
    a.type = AnomalyType.critical_vibration ∨
      a.type = AnomalyType.high_vibration := by
  unfold detectVibrationAnomalies at ha
  split_ifs at ha <;> simp only [List.mem_singleton, List.not_mem_nil] at ha <;>
    subst ha <;> first | exact Or.inl rfl | exact Or.inr rfl

theorem mem_detectPressureAnomalies_type (eid ts : String) (p : ℚ)
    (a : Anomaly) (ha : a ∈ detectPressureAnomalies eid p ts) :
    a.type = AnomalyType.critical_pressure ∨
      a.type = AnomalyType.abnormal_pressure := by
  unfold detectPressureAnomalies at ha
  split_ifs at ha <;> simp only [List.mem_singleton, List.not_mem_nil] at ha <;>
    subst ha <;> first | exact Or.inl rfl | exact Or.inr rfl

/-- C9: the detector never emits `power_spike` or `equipment_offline`
anomalies; the `power_consumption` measurement is never evaluated (changing
it never changes the result); and a reading whose threshold metrics are
absent or inside their normal bands — whatever its power draw — yields the
empty anomaly list. -/
theorem detectAnomalies_ignores_power (r : SensorData) :
    (∀ a ∈ detectAnomalies r,
      a.type ≠ AnomalyType.power_spike ∧ a.type ≠ AnomalyType.equipment_offline)
    ∧ (∀ pc : Option ℚ,
        detectAnomalies { r with power_consumption := pc } = detectAnomalies r)
    ∧ ((∀ t, r.temperature = some t → 0 ≤ t ∧ t ≤ 150) →
       (∀ v, r.vibration = some v → v ≤ 2) →
       (∀ p, r.pressure = some p → 50 ≤ p ∧ p ≤ 500) →
       detectAnomalies r = []) := by
  refine ⟨?_, fun pc => rfl, ?_⟩
  · intro a ha
    unfold detectAnomalies at ha
    rcases List.mem_append.mp ha with h12 | h3
    · rcases List.mem_append.mp h12 with h1 | h2
      · rcases ht : r.temperature with _ | t
        · rw [ht] at h1; simp at h1
        · rw [ht] at h1; simp only [Option.elim] at h1
          rcases mem_detectTemperatureAnomalies_type _ _ _ _ h1 with e | e <;>
            rw [e] <;> exact ⟨by decide, by decide⟩
      · rcases hv : r.vibration with _ | v
        · rw [hv] at h2; simp at h2
        · rw [hv] at h2; simp only [Option.elim] at h2
          rcases mem_detectVibrationAnomalies_type _ _ _ _ h2 with e | e <;>
            rw [e] <;> exact ⟨by decide, by decide⟩
    · rcases hp : r.pressure with _ | p
      · rw [hp] at h3; simp at h3
      · rw [hp] at h3; simp only [Option.elim] at h3
        rcases mem_detectPressureAnomalies_type _ _ _ _ h3 with e | e <;>
          rw [e] <;> exact ⟨by decide, by decide⟩
  · intro hT hV hP
    unfold detectAnomalies
    have e1 : Option.elim r.temperature []
        (fun t => detectTemperatureAnomalies r.equipment_id t r.timestamp) = [] := by
      rcases ht : r.temperature with _ | t
      · rfl
      · exact tempBand_normal _ _ _ (hT t ht).1 (hT t ht).2
    have e2 : Option.elim r.vibration []
        (fun v => detectVibrationAnomalies r.equipment_id v r.timestamp) = [] := by
      rcases hv : r.vibration with _ | v
      · rfl
      · exact vibBand_normal _ _ _ (hV v hv)
    have e3 : Option.elim r.pressure []
        (fun p => detectPressureAnomalies r.equipment_id p r.timestamp) = [] := by
      rcases hp : r.pressure with _ | p
      · rfl
      · exact pressBand_normal _ _ _ (hP p hp).1 (hP p hp).2
    rw [e1, e2, e3]
    rfl

/-- Witness for C9: the sample normal reading (75.5 °C, 1.2 vibration,
250.8 PSI) with a large power draw yields no anomalies. -/
theorem detectAnomalies_ignores_power_witness :
    detectAnomalies normalReading = [] :=
  (detectAnomalies_ignores_power normalReading).2.2
    (by intro t ht; simp only [normalReading] at ht; injection ht with h; subst h
        constructor <;> norm_num)
    (by intro v hv; simp only [normalReading] at hv; injection hv with h; subst h
        norm_num)
    (by intro p hp; simp only [normalReading] at hp; injection hp with h; subst h
        constructor <;> norm_num)

theorem jsTruthy_none : jsTruthy none = false := rfl

theorem truthy_or (a b : Option String) (h : jsTruthy a = true) : a.or b = a := by
  cases a
  · simp [jsTruthy] at h
  · rfl

theorem none_or_eq (b : Option String) : (none : Option String).or b = b := rfl

theorem or_eq_none_iff (a b : Option String) :
    a.or b = none ↔ a = none ∧ b = none := by
  cases a <;> simp [Option.or]

/-- C6-counterexample: a request whose only identifier is an `X-TENANT-ID`
header — a case variant of `X-Tenant-ID` — extracts no tenant id: the code
probes the two exact spellings `X-Tenant-ID` and `x-tenant-id`, not the
header case-insensitively, so a source the claim counts as a hit yields
nothing and the extractor returns null. -/
theorem extractTenantId_not_case_insensitive :
    headerGet upperCaseTenantHeaderEvent "X-TENANT-ID" = some "tenant-a" ∧
    extractTenantId (fun _ => none) upperCaseTenantHeaderEvent = none := by
  constructor <;> rfl

/-- C6 (amended): `extractTenantId` checks the five identifier sources in
the stated priority order with the first hit winning — source (1) being the
header under the two exact spellings `X-Tenant-ID` and `x-tenant-id` rather
than arbitrary casings — and returns null only when all five sources yield
nothing: it equals the first-hit fallback chain over the spec-modelled
per-source extractors. -/
theorem extractTenantId_priority_order (claimOf : String → Option String)
    (event : APIGatewayProxyEvent) :
    extractTenantId claimOf event =
      (tenantSource1 event).or ((tenantSource2 claimOf event).or
        ((tenantSource3 event).or ((tenantSource4 event).or (tenantSource5 event))))
    ∧ (extractTenantId claimOf event = none ↔
        tenantSource1 event = none ∧ tenantSource2 claimOf event = none ∧
        tenantSource3 event = none ∧ tenantSource4 event = none ∧
        tenantSource5 event = none) := by
  have heq : extractTenantId claimOf event =
      (tenantSource1 event).or ((tenantSource2 claimOf event).or
        ((tenantSource3 event).or ((tenantSource4 event).or (tenantSource5 event)))) := by
    simp only [extractTenantId, tenantSource1, tenantSource2, tenantSource3,
      tenantSource4, tenantSource5]
    split_ifs <;> simp_all [truthy_or, none_or_eq, jsTruthy_none]
  refine ⟨heq, ?_⟩
  rw [heq]
  simp [or_eq_none_iff, and_assoc]

/-- C10: `resolveTenant` serves a cached context immediately — the cache
stays unchanged, `validateTenantAccess` (the rate-limit and compliance
checks) is not invoked, and no timer is scheduled — and on a cache miss for
a known tenant it validates, inserts the context, and schedules that
entry's deletion 300000 ms (300 s) after insertion. -/
theorem resolveTenant_cache_behavior (claimOf : String → Option String)
    (cache : List (String × TenantContext)) (event : APIGatewayProxyEvent)
    (tid : String) (ctx : TenantContext)
    (hx : extractTenantId claimOf event = some tid) (hne : tid ≠ "") :
    (lookupCache cache tid = some ctx →
      resolveTenant claimOf cache event =
        { result := Except.ok ctx, cache := cache
          validateInvoked := false, deletionTimersMs := [] }) ∧
    (∀ loaded, lookupCache cache tid = none → loadTenantConfig tid = some loaded →
      resolveTenant claimOf cache event =
        { result := Except.ok loaded, cache := (tid, loaded) :: cache
          validateInvoked := true, deletionTimersMs := [(tid, 300000)] }) := by
  have htr : jsTruthy (some tid) = true := by simp [jsTruthy, hne]
  constructor
  · intro hhit
    unfold resolveTenant
    rw [hx]
    simp [htr, hhit]
  · intro loaded hmiss hload
    unfold resolveTenant
    rw [hx]
    simp [htr, hmiss, hload]

/-- Witness for C10: with `acme-corp` cached, resolution returns the cached
context without validation; with an empty cache, it loads, validates, and
schedules the 300-second deletion timer. -/
theorem resolveTenant_cache_behavior_witness :
    (resolveTenant (fun _ => none) [("acme-corp", acmeTenant)] acmeHeaderEvent =
      { result := Except.ok acmeTenant, cache := [("acme-corp", acmeTenant)]
        validateInvoked := false, deletionTimersMs := [] }) ∧
    (resolveTenant (fun _ => none) [] acmeHeaderEvent =
      { result := Except.ok acmeTenant, cache := [("acme-corp", acmeTenant)]
        validateInvoked := true, deletionTimersMs := [("acme-corp", 300000)] }) :=
  ⟨(resolveTenant_cache_behavior (fun _ => none) [("acme-corp", acmeTenant)]
      acmeHeaderEvent "acme-corp" acmeTenant rfl (by decide)).1 rfl,
   (resolveTenant_cache_behavior (fun _ => none) [] acmeHeaderEvent "acme-corp"
      acmeTenant rfl (by decide)).2 acmeTenant rfl rfl⟩

/-- C2 (amended): for every request whose tenant resolves, whose body parses,
and whose `equipment_id` and `timestamp` are present and non-empty, the
handler answers 200 with a success envelope whose `equipment_id` echoes the
submitted one, whose `anomalies_detected` is the detector's count on the
enriched reading, whose `alerts_created` counts the critical/high anomalies,
and whose `sla_compliant` holds exactly when `processing_latency_ms` is
under 500. -/
theorem ingestHandler_valid_request (claimOf : String → Option String)
    (cache : List (String × TenantContext)) (nowIso : String) (uuid : ℕ → String)
    (processingLatency totalLatency : ℕ) (event : APIGatewayProxyEvent)
    (ctx : TenantContext) (sd : SensorDataIn) (eid ts : String)
    (hresolve : (resolveTenant claimOf cache event).result = Except.ok ctx)
    (hbody : event.body = Except.ok sd)
    (heid : sd.equipment_id = some eid) (heidne : eid ≠ "")
    (hts : sd.timestamp = some ts) (htsne : ts ≠ "") :
    ∃ data : IngestSuccessData,
      (ingestHandler claimOf cache nowIso uuid processingLatency totalLatency
          event).response =
        Except.ok { statusCode := 200, headers := corsHeaders
                    body := ResponseBody.success data nowIso } ∧
      data.equipment_id = eid ∧
      data.anomalies_detected = (detectAnomalies (enrich sd nowIso)).length ∧
      data.alerts_created = ((detectAnomalies (enrich sd nowIso)).filter
        (fun a => a.severity == Severity.critical ||
          a.severity == Severity.high)).length ∧
      (data.sla_compliant = true ↔ data.processing_latency_ms < 500) ∧
      data.processing_latency_ms = totalLatency := by
  have h1 : jsTruthy sd.equipment_id = true := by rw [heid]; simp [jsTruthy, heidne]
  have h2 : jsTruthy sd.timestamp = true := by rw [hts]; simp [jsTruthy, htsne]
  refine ⟨{ message := "Sensor data ingested successfully"
            equipment_id := (enrich sd nowIso).equipment_id
            timestamp := some nowIso
            anomalies_detected := (detectAnomalies (enrich sd nowIso)).length
            alerts_created := ((detectAnomalies (enrich sd nowIso)).filter
              (fun a => a.severity == Severity.critical ||
                a.severity == Severity.high)).length
            processing_latency_ms := totalLatency
            sla_compliant := decide (totalLatency < 500) },
    ?_, ?_, rfl, rfl, by simp, rfl⟩
  · simp [ingestHandler, hresolve, hbody, h1, h2, createSuccessResponse]
  · simp [enrich, heid]

/-- Witness for C2: the sample critical-temperature request with the
`x-tenant-id: acme-corp` header. -/
theorem ingestHandler_valid_request_witness :
    ∃ data : IngestSuccessData,
      (ingestHandler (fun _ => none) [] "2025-11-23T10:31:01.000Z"
          (fun _ => "alert-uuid") 2 7 validIngestEvent).response =
        Except.ok { statusCode := 200, headers := corsHeaders
                    body := ResponseBody.success data "2025-11-23T10:31:01.000Z" } ∧
      data.equipment_id = "FURNACE_003" ∧
      data.anomalies_detected =
        (detectAnomalies (enrich criticalTempPayload "2025-11-23T10:31:01.000Z")).length ∧
      data.alerts_created =
        ((detectAnomalies (enrich criticalTempPayload "2025-11-23T10:31:01.000Z")).filter
          (fun a => a.severity == Severity.critical ||
            a.severity == Severity.high)).length ∧
      (data.sla_compliant = true ↔ data.processing_latency_ms < 500) ∧
      data.processing_latency_ms = 7 :=
  ingestHandler_valid_request (fun _ => none) [] "2025-11-23T10:31:01.000Z"
    (fun _ => "alert-uuid") 2 7 validIngestEvent acmeTenant criticalTempPayload
    "FURNACE_003" "2025-11-23T10:31:00.000Z" rfl rfl rfl (by decide) rfl (by decide)

/-- C2-counterexample: a request whose body parses and carries non-empty
`equipment_id` and `timestamp` but no tenant identifier gets no 200 success
response — the tenant-missing error escapes the handler uncaught and no
work happens. -/
theorem ingestHandler_valid_body_no_tenant :
    ingestHandler (fun _ => none) [] "2025-11-23T10:31:01.000Z"
        (fun _ => "alert-uuid") 2 7 noTenantValidBodyEvent =
      { response := Except.error "Tenant ID not found in request"
        effects := [] } := rfl

/-- C4: on a request with no tenant identifier in any of the five locations,
the handler does not produce the 400 TenantMissing envelope the spec
mandates: `resolveTenant`'s exception escapes `withTenantContext` uncaught
(surfacing as a failed Lambda invocation), though indeed no downstream work
(parsing, detection, storage, publishing) occurs. -/
theorem ingestHandler_tenant_missing_escapes :
    ingestHandler (fun _ => none) [] "2025-11-23T10:30:01.000Z"
        (fun _ => "alert-uuid") 1 3 tenantMissingEvent =
      { response := Except.error "Tenant ID not found in request"
        effects := [] } := rfl

/-- C5 (amended): for a request whose tenant resolves, a parsed body
lacking (or carrying an empty) required field yields HTTP 400 with the
fixed error string naming both required fields and no details list, and
the only effect is the tenant usage tick — no detection, storage, or
publishing occurs. (Without a resolvable tenant no 400 is produced at
all: the resolver's error escapes the handler, as the tenant-missing
analysis shows.) -/
theorem ingestHandler_missing_fields (claimOf : String → Option String)
    (cache : List (String × TenantContext)) (nowIso : String) (uuid : ℕ → String)
    (processingLatency totalLatency : ℕ) (event : APIGatewayProxyEvent)
    (ctx : TenantContext) (sd : SensorDataIn)
    (hresolve : (resolveTenant claimOf cache event).result = Except.ok ctx)
    (hbody : event.body = Except.ok sd)
    (hmiss : jsTruthy sd.equipment_id = false ∨ jsTruthy sd.timestamp = false) :
    ingestHandler claimOf cache nowIso uuid processingLatency totalLatency event =
      { response := Except.ok
          { statusCode := 400, headers := corsHeaders
            body := ResponseBody.failure
              "Missing required fields: equipment_id, timestamp" none nowIso }
        effects := [Effect.trackUsage ctx.tenant_id "sensor-data-ingestion"] } := by
  unfold ingestHandler
  simp only [hresolve, hbody]
  rcases hmiss with h | h <;> simp [h, createErrorResponse]

/-- Witness for C5: the missing-timestamp request against the loaded
`acme-corp` context. -/
theorem ingestHandler_missing_fields_witness :
    ingestHandler (fun _ => none) [] "2025-11-23T10:32:01.000Z"
        (fun _ => "alert-uuid") 1 4 missingTimestampEvent =
      { response := Except.ok
          { statusCode := 400, headers := corsHeaders
            body := ResponseBody.failure
              "Missing required fields: equipment_id, timestamp" none
              "2025-11-23T10:32:01.000Z" }
        effects := [Effect.trackUsage "acme-corp" "sensor-data-ingestion"] } :=
  ingestHandler_missing_fields (fun _ => none) [] "2025-11-23T10:32:01.000Z"
    (fun _ => "alert-uuid") 1 4 missingTimestampEvent acmeTenant
    { equipment_id := some "PUMP_001" } rfl rfl (Or.inr rfl)

/-- C5-counterexample: for a body missing only `timestamp`, the 400 response
carries no details list at all (details is absent and the error string names
both required fields), contradicting "a details list enumerating exactly the
missing fields". -/
theorem ingestHandler_missing_timestamp_no_details :
    ingestHandler (fun _ => none) [] "2025-11-23T10:33:01.000Z"
        (fun _ => "alert-uuid") 1 4 missingTimestampEvent =
      { response := Except.ok
          { statusCode := 400, headers := corsHeaders
            body := ResponseBody.failure
              "Missing required fields: equipment_id, timestamp" none
              "2025-11-23T10:33:01.000Z" }
        effects := [Effect.trackUsage "acme-corp" "sensor-data-ingestion"] } := rfl

theorem archiveErrorToS3_puts (env : Env) (sd : SensorData)
    (tc : Option TenantContext) (errNow : JsDate) (epochMs : ℕ) (nowIso : String)
    (sendOutcome : Except String Unit) :
    (archiveErrorToS3 env sd tc errNow epochMs nowIso sendOutcome).2 =
      [{ bucket := archiveBucket env tc
         key := archiveErrorKey sd tc env errNow epochMs
         processing_failed := true
         metadata :=
           [("errorType", "processing-failed"),
            ("equipmentId", jsOrStr (some sd.equipment_id) "unknown"),
            ("tenantId", jsOrStr (tc.map (fun t => t.tenant_id)) "shared"),
            ("archivedAt", nowIso)] }] := by
  cases sendOutcome <;> rfl

/-- C3 (amended): `storeSensorDataMultiTier` never raises (it always returns
a `StorageResult`); the `timescale` and `postgres` flags are true exactly
when those tiers' attempts succeed, while the `s3` flag is always true —
`archiveToS3` catches its own failure and resolves with a success-false
payload whose settled status still counts as fulfilled. Whenever the hot or
warm tier fails, the raw reading is additionally written to the cold-tier
error location — key rooted at `errors/` (under the `tenants/<tenant_id>/`
stem in shared mode) with filename `<equipment_id>-<epoch_ms>.json` and a
`processing_failed: true` marker — and a failed cold-tier upload triggers
the same error archival from inside `archiveToS3` itself. -/
theorem storeSensorData_flags_and_error_archive (env : Env) (sd : SensorData)
    (tc : Option TenantContext) (tsO pgO sendO errSendO fanSendO : Except String Unit)
    (d errNow : JsDate) (epochMs : ℕ) (nowIso : String) (latency : ℕ) :
    (storeSensorDataMultiTier env sd tc tsO pgO sendO errSendO fanSendO d errNow
      epochMs nowIso latency).1.timescale = exceptOk tsO ∧
    (storeSensorDataMultiTier env sd tc tsO pgO sendO errSendO fanSendO d errNow
      epochMs nowIso latency).1.postgres = exceptOk pgO ∧
    (storeSensorDataMultiTier env sd tc tsO pgO sendO errSendO fanSendO d errNow
      epochMs nowIso latency).1.s3 = true ∧
    ((exceptOk tsO = false ∨ exceptOk pgO = false) →
      ∃ p ∈ (storeSensorDataMultiTier env sd tc tsO pgO sendO errSendO fanSendO d
        errNow epochMs nowIso latency).2,
        p.key = archiveErrorKey sd tc env errNow epochMs ∧
        p.processing_failed = true) ∧
    (exceptOk sendO = false →
      ∃ p ∈ (storeSensorDataMultiTier env sd tc tsO pgO sendO errSendO fanSendO d
        errNow epochMs nowIso latency).2,
        p.key = archiveErrorKey sd tc env errNow epochMs ∧
        p.processing_failed = true) ∧
    (∀ t, tc = some t → t.deployment_type = DeploymentType.single_tenant →
      archiveErrorKey sd tc env errNow epochMs =
        "errors/" ++ jsDateKeyPart errNow ++ "/" ++
        jsOrStr (some sd.equipment_id) "unknown" ++ "-" ++ toString epochMs ++
        ".json") ∧
    (∀ t, tc = some t → t.deployment_type = DeploymentType.multi_tenant →
      archiveErrorKey sd tc env errNow epochMs =
        "tenants/" ++ t.tenant_id ++ "/" ++
        ("errors/" ++ jsDateKeyPart errNow ++ "/" ++
         jsOrStr (some sd.equipment_id) "unknown" ++ "-" ++ toString epochMs ++
         ".json")) := by
  have herr := archiveErrorToS3_puts env sd tc errNow epochMs nowIso fanSendO
  have herr2 := archiveErrorToS3_puts env sd tc errNow epochMs nowIso errSendO
  refine ⟨rfl, rfl, rfl, ?_, ?_, ?_, ?_⟩
  · intro h
    refine ⟨{ bucket := archiveBucket env tc
              key := archiveErrorKey sd tc env errNow epochMs
              processing_failed := true
              metadata :=
                [("errorType", "processing-failed"),
                 ("equipmentId", jsOrStr (some sd.equipment_id) "unknown"),
                 ("tenantId", jsOrStr (tc.map (fun t => t.tenant_id)) "shared"),
                 ("archivedAt", nowIso)] }, ?_, rfl, rfl⟩
    cases tsO with
    | error e => simp [storeSensorDataMultiTier, herr]
    | ok u =>
      rcases h with h | h
      · simp [exceptOk] at h
      · cases pgO with
        | error e => simp [storeSensorDataMultiTier, herr]
        | ok u2 => simp [exceptOk] at h
  · intro h
    cases sendO with
    | ok u => simp [exceptOk] at h
    | error e =>
      refine ⟨{ bucket := archiveBucket env tc
                key := archiveErrorKey sd tc env errNow epochMs
                processing_failed := true
                metadata :=
                  [("errorType", "processing-failed"),
                   ("equipmentId", jsOrStr (some sd.equipment_id) "unknown"),
                   ("tenantId", jsOrStr (tc.map (fun t => t.tenant_id)) "shared"),
                   ("archivedAt", nowIso)] }, ?_, rfl, rfl⟩
      simp [storeSensorDataMultiTier, archiveToS3, herr2]
  · intro t htc hdep
    subst htc
    simp [archiveErrorKey, hdep]
  · intro t htc hdep
    subst htc
    simp [archiveErrorKey, hdep, getStorageConfig, jsOrStr, ite_self]

/-- Witness for C3: the hot tier failing on the sample reading in shared
mode puts the error object at the tenant-stemmed errors key. -/
theorem storeSensorData_flags_witness :
    ∃ p ∈ (storeSensorDataMultiTier {} normalReading (some sharedTenant)
        (Except.error "timeout") (Except.ok ()) (Except.ok ()) (Except.ok ())
        (Except.ok ()) novDate novDate 1763893800000
        "2025-11-23T10:30:01.000Z" 5).2,
      p.key = archiveErrorKey normalReading (some sharedTenant) {} novDate
        1763893800000 ∧
      p.processing_failed = true :=
  (storeSensorData_flags_and_error_archive {} normalReading (some sharedTenant)
    (Except.error "timeout") (Except.ok ()) (Except.ok ()) (Except.ok ())
    (Except.ok ()) novDate novDate 1763893800000 "2025-11-23T10:30:01.000Z"
    5).2.2.2.1 (Or.inl rfl)

/-- C3-counterexample: with the cold-tier upload failing (and the other
tiers succeeding), the returned `s3` flag is still true — the flag is not
"true iff that tier's storage attempt succeeded". -/
theorem storeSensorData_s3_flag_true_on_failure :
    (storeSensorDataMultiTier {} normalReading (some acmeTenant)
        (Except.ok ()) (Except.ok ()) (Except.error "S3 upload failed")
        (Except.ok ()) (Except.ok ()) novDate novDate 1763893800000
        "2025-11-23T10:30:01.000Z" 5).1.s3 = true := rfl

/-- C7: the cold-tier archive key is
`<facility_id>/<equipment_id>/<YYYY>/<MM>/<DD>/<HH>/<timestamp>.json` for an
isolated context and
`tenants/<tenant_id>/<facility_id>/<equipment_id>/<YYYY>/<MM>/<DD>/<HH>/<timestamp>.json`
for a shared context, with the date segment (year, zero-padded month, day,
hour) derived from the components of the reading's parsed `timestamp`, and
the stored object carries the equipment-id, tenant-id, sensor-type and
archived-at metadata headers. -/
theorem archiveToS3_key_layout (env : Env) (sd : SensorData) (t : TenantContext)
    (d : JsDate) (nowIso : String) (errNow : JsDate) (epochMs : ℕ)
    (sendO errSendO : Except String Unit) (fac : String)
    (hfac : sd.facility_id = some fac) (hfacne : fac ≠ "")
    (htid : t.tenant_id ≠ "") :
    jsDateKeyPart d =
      toString d.year ++ "/" ++ jsPad2 (toString (d.month + 1)) ++ "/" ++
      jsPad2 (toString d.day) ++ "/" ++ jsPad2 (toString d.hour) ∧
    (t.deployment_type = DeploymentType.single_tenant →
      archiveKey sd (some t) env d =
        fac ++ "/" ++ sd.equipment_id ++ "/" ++ jsDateKeyPart d ++ "/" ++
        sd.timestamp ++ ".json") ∧
    (t.deployment_type = DeploymentType.multi_tenant →
      archiveKey sd (some t) env d =
        "tenants/" ++ t.tenant_id ++ "/" ++
        (fac ++ "/" ++ sd.equipment_id ++ "/" ++ jsDateKeyPart d ++ "/" ++
         sd.timestamp ++ ".json")) ∧
    (∃ p ∈ (archiveToS3 env sd (some t) d nowIso errNow epochMs sendO
        errSendO).2,
      p.key = archiveKey sd (some t) env d ∧
      p.processing_failed = false ∧
      p.metadata =
        [("equipmentId", sd.equipment_id), ("tenantId", t.tenant_id),
         ("sensorType", "manufacturing"), ("archivedAt", nowIso)]) := by
  refine ⟨rfl, ?_, ?_, ?_⟩
  · intro hdep
    simp [archiveKey, hdep, jsOrStr, hfac, hfacne]
  · intro hdep
    simp [archiveKey, hdep, getStorageConfig, jsOrStr, ite_self, hfac, hfacne]
  · refine ⟨{ bucket := archiveBucket env (some t)
              key := archiveKey sd (some t) env d
              processing_failed := false
              metadata := archiveMetadata sd (some t) nowIso }, ?_, rfl, rfl, ?_⟩
    · cases sendO <;> simp [archiveToS3]
    · simp [archiveMetadata, jsOrStr, htid]

/-- Witness for C7: the sample normal reading for the isolated `acme-corp`
tenant archives at the facility-rooted date-partitioned key. -/
theorem archiveToS3_key_layout_witness :
    archiveKey normalReading (some acmeTenant) {} novDate =
      "FAC_CHICAGO_01/PUMP_001/2025/11/23/10/2025-11-23T10:30:00.000Z.json" :=
  ((archiveToS3_key_layout {} normalReading acmeTenant novDate
      "2025-11-23T10:30:01.000Z" novDate 1763893800000 (Except.ok ())
      (Except.ok ()) "FAC_CHICAGO_01" rfl (by decide) (by decide)).2.1
    rfl).trans (by decide)

/-- C8: the row-level-security discipline does not hold for all
interleavings: the selector's fire-and-forget `SET app.current_tenant_id`
runs as its own pool query on an arbitrary connection, so for two
concurrent shared-mode requests the pool can interleave them —
`SET(acme-corp)`, `SET(shared-tenant)`, then both data queries on the same
connection — making acme-corp's query execute on a connection whose
variable was last set for shared-tenant, with no reset on acquisition. -/
theorem sharedPool_rls_race :
    Interleave (requestOps "acme-corp" 0 0) (requestOps "shared-tenant" 0 0)
      raceTrace ∧
    rlsSafe raceTrace = false :=
  ⟨Interleave.left (Interleave.right (Interleave.left
      (Interleave.right Interleave.nil))),
   by decide⟩
